import Mathlib

deriving instance DecidableEq for Except

/-!
# Shallow embedding of the MERN backend's post / object-store subsystem

This file embeds, as executable Lean definitions, the parts of the repository
that the verified properties are about:

* `src/services/postService.js` — `PostService` (getAllPosts, getPostsByUser,
  getPostById, createPost, updatePost, deletePost, validateObjectId);
* `src/utils/fileUpload.js` — `uploadToGridFS`, `uploadMultipleToGridFS`;
* the public download route handlers `GET /image/:filename` and
  `GET /image/id/:id` from the post router;
* the post schema (`postModel`): fields title, content, user_id, images
  (fileId/filename/contentType/size), managed timestamps, with
  `required: true` on title and content;
* the GridFS bucket primitives consumed by the above (`find`, `delete`,
  `openDownloadStream(ByName)`), modelled over an explicit list of stored
  objects.

JavaScript strings are modelled as Lean `String`s, with the JS-truthiness and
trimming behaviour made explicit over character lists (the core `String`
functions built on byte positions do not reduce in the kernel).  MongoDB
ObjectIds are modelled as the strings mongoose accepts.  The database and the
GridFS bucket are explicit state arguments threaded through each operation;
an operation that throws returns an `Except.error` together with the
unchanged state.
-/

/-! ## JavaScript string semantics -/

/-- `s.trim()`: strip whitespace from both ends (over the character list). -/
def jsTrim (s : String) : String :=
  ⟨((s.toList.dropWhile Char.isWhitespace).reverse.dropWhile Char.isWhitespace).reverse⟩

/-- `s.startsWith(p)` on JS strings. -/
def jsStartsWith (s p : String) : Bool :=
  p.toList.isPrefixOf s.toList

/-- JS `a || b` for an optional string `a`: `undefined` and `""` are falsy. -/
def jsOrStr (a : Option String) (b : String) : String :=
  match a with
  | some s => if s = "" then b else s
  | none => b

/-- JS truthiness of an optional string field (`undefined` and `""` falsy). -/
def jsTruthy : Option String → Bool
  | none => false
  | some t => t ≠ ""

/-- `Math.ceil(a / b)` for natural `a` and positive natural `b`. -/
def jsCeilDiv (a b : Nat) : Nat := (a + b - 1) / b

/-! ## ObjectId validity

`mongoose.Types.ObjectId.isValid` accepts a 24-character hex string or any
12-character string. -/

def isHexChar (c : Char) : Bool :=
  c.isDigit || ('a' ≤ c && c ≤ 'f') || ('A' ≤ c && c ≤ 'F')

def isValidObjectId (s : String) : Bool :=
  (s.length == 24 && s.toList.all isHexChar) || s.length == 12

/-! ## Data model -/

/-- One entry of a post's `images` array (postModel). -/
structure PostImageRef where
  fileId : String
  filename : String
  contentType : String
  size : Nat
  deriving Repr, DecidableEq

/-- A `Post` document: title, content, user_id, images, managed timestamps. -/
structure Post where
  id : String
  title : String
  content : String
  user_id : String
  images : List PostImageRef := []
  createdAt : Nat := 0
  updatedAt : Nat := 0
  deriving Repr, DecidableEq

/-- A GridFS stored object: the files-collection document (id, generated
filename, metadata with originalName/contentType/uploadedBy) together with its
chunk data, flattened to a byte list. -/
structure StoredObject where
  oid : String
  filename : String
  metadataContentType : Option String := none
  metadataOriginalName : Option String := none
  uploadedBy : String := ""
  uploadedAt : Nat := 0
  contentTypeTop : Option String := none
  data : List Nat := []
  deriving Repr, DecidableEq

/-- The error taxonomy raised by the service layer (`utils/errors`), plus the
validation failures mongoose raises when `runValidators` rejects an update. -/
inductive Err where
  | validation (msg : String)
  | notFound (what : String)
  | authorization (msg : String)
  deriving Repr, DecidableEq

/-- The observable outcome of a download route handler: a JSON error response
with a status code, or a streamed body with its Content-Type and
Content-Disposition filename. -/
inductive HttpResult where
  | json (status : Nat) (error : String)
  | stream (contentType : String) (dispositionName : String) (data : List Nat)
  deriving Repr, DecidableEq

structure Pagination where
  page : Nat
  limit : Nat
  total : Nat
  pages : Nat
  deriving Repr, DecidableEq

structure PagedPosts where
  posts : List Post
  pagination : Pagination
  deriving Repr, DecidableEq

/-- `req.body` of create: `{ title, content }`, either possibly absent. -/
structure PostData where
  title : Option String := none
  content : Option String := none
  deriving Repr, DecidableEq

/-- An update payload: the two fields the service reads, plus arbitrary other
keys a client may send (never consulted by the allow-list logic). -/
structure Patch where
  title : Option String := none
  content : Option String := none
  extra : List (String × String) := []
  deriving Repr, DecidableEq

/-- The `updates` object built from the allow-list (`title`, `content`). -/
structure Updates where
  title : Option String := none
  content : Option String := none
  deriving Repr, DecidableEq

/-- A multer in-memory file: buffer, originalname, mimetype. -/
structure FileInfo where
  originalname : String
  mimetype : String
  buffer : List Nat
  deriving Repr, DecidableEq

/-- The record `uploadToGridFS` resolves with. -/
structure UploadedFile where
  id : String
  filename : String
  contentType : String
  size : Nat
  deriving Repr, DecidableEq

/-! ## Document-store primitives -/

/-- `Post.findById`: the unique document with the given `_id` (first match). -/
def findById (db : List Post) (postId : String) : Option Post :=
  db.find? (fun p => p.id = postId)

/-- `Post.findByIdAndDelete`: remove the (unique) document with this `_id`. -/
def findByIdAndDelete (db : List Post) (postId : String) : List Post :=
  match db with
  | [] => []
  | q :: rest => if q.id = postId then rest else q :: findByIdAndDelete rest postId

/-- Replace the (unique) document with this `_id`. -/
def replaceById (db : List Post) (postId : String) (p : Post) : List Post :=
  match db with
  | [] => []
  | q :: rest => if q.id = postId then p :: rest else q :: replaceById rest postId p

/-- `Post.findByIdAndUpdate(postId, updates, { new: true, runValidators: true })`
with the post schema's validators: `required: true` on `title`/`content`
rejects setting either to the empty string; mongoose timestamps bump
`updatedAt`.  Returns the updated document (`new: true`), or `none` when no
document matches. -/
def findByIdAndUpdate (db : List Post) (postId : String) (u : Updates) (now : Nat) :
    Except Err (Option Post × List Post) :=
  if u.title = some "" || u.content = some "" then
    .error (.validation "Post validation failed")
  else
    match findById db postId with
    | none => .ok (none, db)
    | some p =>
      let p' : Post :=
        { p with
          title := u.title.getD p.title
          content := u.content.getD p.content
          updatedAt := now }
      .ok (some p', replaceById db postId p')

/-- `gridfsBucket.delete(fileId)`: removes the files document and its chunks;
throws (here: `none`) when no stored object matches the id. -/
def bucketDelete (store : List StoredObject) (fileId : String) : Option (List StoredObject) :=
  if store.any (fun f => f.oid = fileId) then
    some (store.filter (fun f => f.oid ≠ fileId))
  else none

/-! ## PostService (src/services/postService.js) -/

/-- `Post.find({}).sort({createdAt: -1})`: newest first. -/
def sortByCreatedAtDesc (posts : List Post) : List Post :=
  posts.mergeSort (fun a b => b.createdAt ≤ a.createdAt)

/-- `PostService.getAllPosts(page, limit)`. -/
def getAllPosts (db : List Post) (page : Nat := 1) (limit : Nat := 10) : PagedPosts :=
  let skip := (page - 1) * limit
  let posts := ((sortByCreatedAtDesc db).drop skip).take limit
  let total := db.length
  { posts := posts
    pagination := { page := page, limit := limit, total := total, pages := jsCeilDiv total limit } }

/-- `PostService.getPostsByUser(userId, page, limit)`. -/
def getPostsByUser (db : List Post) (userId : String) (page : Nat := 1) (limit : Nat := 10) :
    PagedPosts :=
  let matching := db.filter (fun p => p.user_id = userId)
  let skip := (page - 1) * limit
  let posts := ((sortByCreatedAtDesc matching).drop skip).take limit
  let total := matching.length
  { posts := posts
    pagination := { page := page, limit := limit, total := total, pages := jsCeilDiv total limit } }

/-- `PostService.getPostById(postId)`. -/
def getPostById (db : List Post) (postId : String) : Except Err Post :=
  if !(isValidObjectId postId) then .error (.validation "Invalid post ID format")
  else
    match findById db postId with
    | none => .error (.notFound "Post")
    | some post => .ok post

/-- Build one `images` entry from an uploaded file record. -/
def toImageRef (f : UploadedFile) : PostImageRef :=
  { fileId := f.id, filename := f.filename, contentType := f.contentType, size := f.size }

/-- `PostService.createPost(postData, userId, files)`.  `newId`/`now` stand for
the id and timestamp the store assigns on insert. -/
def createPost (db : List Post) (newId : String) (now : Nat) (postData : PostData)
    (userId : String) (files : List UploadedFile := []) : Except Err Post × List Post :=
  if !(jsTruthy postData.title) || !(jsTruthy postData.content) then
    (.error (.validation "Title and content are required"), db)
  else
    let title := postData.title.getD ""
    let content := postData.content.getD ""
    if (jsTrim title).length < 3 then
      (.error (.validation "Title must be at least 3 characters long"), db)
    else if (jsTrim content).length < 10 then
      (.error (.validation "Content must be at least 10 characters long"), db)
    else
      let images := if files.length > 0 then files.map toImageRef else []
      let post : Post :=
        { id := newId, title := jsTrim title, content := jsTrim content,
          user_id := userId, images := images, createdAt := now, updatedAt := now }
      (.ok post, db ++ [post])

/-- `PostService.updatePost(postId, updateData, userId)`. -/
def updatePost (db : List Post) (postId : String) (updateData : Patch) (userId : String)
    (now : Nat) : Except Err (Option Post) × List Post :=
  if !(isValidObjectId postId) then
    (.error (.validation "Invalid post ID format"), db)
  else
    match findById db postId with
    | none => (.error (.notFound "Post"), db)
    | some post =>
      if post.user_id ≠ userId then
        (.error (.authorization "You can only update your own posts"), db)
      else if jsTruthy updateData.title && (jsTrim (updateData.title.getD "")).length < 3 then
        (.error (.validation "Title must be at least 3 characters long"), db)
      else if jsTruthy updateData.content && (jsTrim (updateData.content.getD "")).length < 10 then
        (.error (.validation "Content must be at least 10 characters long"), db)
      else
        let updates : Updates :=
          { title := updateData.title.map jsTrim, content := updateData.content.map jsTrim }
        match findByIdAndUpdate db postId updates now with
        | .error e => (.error e, db)
        | .ok (res, db') => (.ok res, db')

/-- The image-deletion loop of `deletePost`: one `try` block wraps the whole
`for … of post.images` loop, so the first failing `gridfsBucket.delete`
throws out of the loop and the `catch` swallows the error, leaving the
remaining images unattempted. -/
def deleteImagesLoop : List StoredObject → List PostImageRef → List StoredObject
  | store, [] => store
  | store, img :: rest =>
    match bucketDelete store img.fileId with
    | some store' => deleteImagesLoop store' rest
    | none => store

/-- `PostService.deletePost(postId, userId)`. -/
def deletePost (db : List Post) (store : List StoredObject) (postId userId : String) :
    Except Err String × List Post × List StoredObject :=
  if !(isValidObjectId postId) then
    (.error (.validation "Invalid post ID format"), db, store)
  else
    match findById db postId with
    | none => (.error (.notFound "Post"), db, store)
    | some post =>
      if post.user_id ≠ userId then
        (.error (.authorization "You can only delete your own posts"), db, store)
      else
        let store' := if post.images.length > 0 then deleteImagesLoop store post.images else store
        (.ok "Post deleted successfully", findByIdAndDelete db postId, store')

/-! ## File upload (src/utils/fileUpload.js) -/

/-- Lowercase hex digit of `n < 16`. -/
def hexDigitChar (n : Nat) : Char :=
  if n < 10 then Char.ofNat (48 + n) else Char.ofNat (87 + n)

/-- Two hex digits of one byte. -/
def byteToHex (b : Nat) : List Char := [hexDigitChar (b / 16), hexDigitChar (b % 16)]

/-- `Buffer.toString('hex')`. -/
def bytesToHex (bs : List Nat) : String := ⟨bs.flatMap byteToHex⟩

/-- The suffix of `cs` from its last `'.'` (inclusive), if any. -/
def extAfterLastDot : List Char → Option (List Char)
  | [] => none
  | c :: cs =>
    match extAfterLastDot cs with
    | some e => some e
    | none => if c = '.' then some ('.' :: cs) else none

/-- Node's `path.extname`: the extension of the basename, from its last dot;
empty when there is no dot, when the only dot leads the basename, or for
`".."`. -/
def extname (p : String) : String :=
  let base := (p.toList.splitOn '/').getLastD []
  if base = ['.', '.'] then ""
  else
    match base with
    | [] => ""
    | _ :: rest =>
      match extAfterLastDot rest with
      | some e => ⟨e⟩
      | none => ""

/-- `uploadToGridFS(buffer, fileInfo, userId)`.  `randomBytes` stands for the
16 bytes drawn from `crypto.randomBytes`, `newId` for the id GridFS assigns,
`now` for `new Date()`.  Returns the resolved record and the store extended
with the finalized object. -/
def uploadToGridFS (randomBytes : List Nat) (newId : String) (store : List StoredObject)
    (fileInfo : FileInfo) (userId : String) (now : Nat) : UploadedFile × List StoredObject :=
  let filename := bytesToHex randomBytes ++ extname fileInfo.originalname
  let obj : StoredObject :=
    { oid := newId
      filename := filename
      metadataContentType := some fileInfo.mimetype
      metadataOriginalName := some fileInfo.originalname
      uploadedBy := userId
      uploadedAt := now
      data := fileInfo.buffer }
  ({ id := newId, filename := filename, contentType := fileInfo.mimetype,
     size := fileInfo.buffer.length },
   store ++ [obj])

/-- Sequentialized batch upload used by `uploadMultipleToGridFS` below: each
file consumes one `(randomBytes, id)` pair. -/
def uploadAll (userId : String) (now : Nat) :
    List (FileInfo × List Nat × String) → List StoredObject →
    List UploadedFile × List StoredObject
  | [], store => ([], store)
  | (f, rb, newId) :: rest, store =>
    let (u, store') := uploadToGridFS rb newId store f userId now
    let (us, store'') := uploadAll userId now rest store'
    (u :: us, store'')

/-- `uploadMultipleToGridFS(files, userId)`: `!files || files.length === 0`
short-circuits to `[]` before any store access. -/
def uploadMultipleToGridFS (randoms : List (List Nat × String))
    (files : Option (List FileInfo)) (userId : String) (store : List StoredObject) (now : Nat) :
    List UploadedFile × List StoredObject :=
  match files with
  | none => ([], store)
  | some fs =>
    if fs.length = 0 then ([], store)
    else uploadAll userId now (fs.zip randoms) store

/-! ## Download route handlers (post router) -/

/-- Resolved content type: `file.metadata?.contentType || file.contentType ||
'image/jpeg'`. -/
def resolveContentType (f : StoredObject) : String :=
  jsOrStr f.metadataContentType (jsOrStr f.contentTypeTop "image/jpeg")

/-- The Content-Disposition filename:
`file.metadata?.originalName || file.filename`. -/
def dispositionName (f : StoredObject) : String :=
  jsOrStr f.metadataOriginalName f.filename

/-- `GET /image/:filename`: find by generated filename; gate on an `image/*`
content type; stream on success. -/
def getImageByName (store : List StoredObject) (filename : String) : HttpResult :=
  match store.filter (fun f => f.filename = filename) with
  | [] => .json 404 "Image not found"
  | file :: _ =>
    let contentType := resolveContentType file
    if jsStartsWith contentType "image/" then
      .stream contentType (dispositionName file) file.data
    else
      .json 404 "Not an image"

/-- `GET /image/id/:id`: validate the id shape, find by id, then stream —
the handler sets headers and pipes without any content-type check. -/
def getImageById (store : List StoredObject) (id : String) : HttpResult :=
  if !(isValidObjectId id) then .json 400 "Invalid file ID"
  else
    match store.filter (fun f => f.oid = id) with
    | [] => .json 404 "Image not found"
    | file :: _ =>
      .stream (resolveContentType file) (dispositionName file) file.data

/-! ## Claim C1 — deletion cascade -/

def pid1 : String := "aaaaaaaaaaaaaaaaaaaaaaaa"

def refA1 : PostImageRef :=
  { fileId := "111111111111111111111111", filename := "a.png", contentType := "image/png", size := 3 }

def refB1 : PostImageRef :=
  { fileId := "222222222222222222222222", filename := "b.png", contentType := "image/png", size := 4 }

def objB1 : StoredObject := { oid := "222222222222222222222222", filename := "b.png" }

def post1 : Post :=
  { id := pid1, title := "Hello", content := "Long enough content",
    user_id := "u1", images := [refA1, refB1] }

/-- C1 (counterexample): a post owns images A and B; only B's object exists in
the store.  A's failing delete aborts the loop, so B's delete — which would
have succeeded, as the second conjunct shows — is never attempted: the store
still holds B's object afterwards, while the Post record itself is deleted. -/
theorem deletePost_sibling_not_attempted :
    deletePost [post1] [objB1] pid1 "u1" =
      (.ok "Post deleted successfully", [], [objB1]) ∧
    bucketDelete [objB1] refB1.fileId = some [] := by decide

/-- C1 (amended): for an owner-authorized delete of a post with at least two
images, the image deletes are attempted sequentially and the Post record is
removed regardless of their outcome; but an error on one image's delete is
swallowed at the level of the whole loop, so when the first image's delete
fails, the store is left untouched — the sibling deletes are not attempted. -/
theorem deletePost_cascade (db : List Post) (store : List StoredObject)
    (postId userId : String) (post : Post)
    (hvalid : isValidObjectId postId = true)
    (hfind : findById db postId = some post)
    (howner : post.user_id = userId)
    (himgs : 2 ≤ post.images.length) :
    deletePost db store postId userId =
      (.ok "Post deleted successfully", findByIdAndDelete db postId,
        deleteImagesLoop store post.images) ∧
    (∀ img rest, post.images = img :: rest → bucketDelete store img.fileId = none →
      deleteImagesLoop store post.images = store) := by
  constructor
  · have h0 : 0 < post.images.length := by omega
    simp [deletePost, hvalid, hfind, howner, h0]
  · intro img rest hcons hfail
    rw [hcons]
    simp [deleteImagesLoop, hfail]

/-- C1 (witness for the amended theorem). -/
theorem deletePost_cascade_witness :
    deletePost [post1] [objB1] pid1 "u1" =
      (.ok "Post deleted successfully", findByIdAndDelete [post1] pid1,
        deleteImagesLoop [objB1] post1.images) ∧
    (∀ img rest, post1.images = img :: rest → bucketDelete [objB1] img.fileId = none →
      deleteImagesLoop [objB1] post1.images = [objB1]) :=
  deletePost_cascade [post1] [objB1] pid1 "u1" post1 (by decide) (by decide) rfl (by decide)

/-! ## Claim C2 — content-type gating of the download endpoints -/

def pdfId2 : String := "dddddddddddddddddddddddd"

def objPdf2 : StoredObject :=
  { oid := pdfId2, filename := "doc.pdf",
    metadataContentType := some "application/pdf",
    metadataOriginalName := some "report.pdf",
    data := [37, 80, 68, 70] }

/-- C2 (counterexample): a stored PDF is streamed, bytes and all, by the
by-id endpoint, even though its content type does not start with
`image/` — the by-id handler has no content-type gate. -/
theorem getImageById_streams_pdf :
    getImageById [objPdf2] pdfId2 =
      .stream "application/pdf" "report.pdf" [37, 80, 68, 70] ∧
    jsStartsWith "application/pdf" "image/" = false := by decide

/-- C2 (amended): the by-name endpoint gates on an `image/` content-type
prefix — non-image objects get a 404 "Not an image" and are never streamed —
while the by-id endpoint performs no such gating and streams the resolved
object whatever its content type. -/
theorem download_gate (store : List StoredObject) (f : StoredObject) :
    (∀ fn rest, store.filter (fun o => o.filename = fn) = f :: rest →
      jsStartsWith (resolveContentType f) "image/" = false →
      getImageByName store fn = .json 404 "Not an image") ∧
    (∀ fn rest, store.filter (fun o => o.filename = fn) = f :: rest →
      jsStartsWith (resolveContentType f) "image/" = true →
      getImageByName store fn = .stream (resolveContentType f) (dispositionName f) f.data) ∧
    (∀ i rest, isValidObjectId i = true →
      store.filter (fun o => o.oid = i) = f :: rest →
      getImageById store i = .stream (resolveContentType f) (dispositionName f) f.data) := by
  refine ⟨?_, ?_, ?_⟩
  · intro fn rest hfilter hgate
    simp [getImageByName, hfilter, hgate]
  · intro fn rest hfilter hgate
    simp [getImageByName, hfilter, hgate]
  · intro i rest hvalid hfilter
    simp [getImageById, hvalid, hfilter]

/-- C2 (witness for the amended theorem). -/
theorem download_gate_witness :
    getImageByName [objPdf2] "doc.pdf" = .json 404 "Not an image" ∧
    getImageById [objPdf2] pdfId2 =
      .stream (resolveContentType objPdf2) (dispositionName objPdf2) objPdf2.data :=
  ⟨(download_gate [objPdf2] objPdf2).1 "doc.pdf" [] (by decide) (by decide),
   (download_gate [objPdf2] objPdf2).2.2 pdfId2 [] (by decide) (by decide)⟩

/-! ## Claim C3 — ownership guard precedes validation and mutation -/

/-- C3: for an existing post whose stored `user_id` differs from the
requesting user's id, `updatePost` fails with the authorization error for
every payload whatsoever, and `deletePost` fails likewise; in both cases the
returned database and object store are exactly the inputs — no record and no
image object is touched. -/
theorem ownership_guard (db : List Post) (store : List StoredObject)
    (postId userId : String) (post : Post)
    (hvalid : isValidObjectId postId = true)
    (hfind : findById db postId = some post)
    (howner : post.user_id ≠ userId) :
    (∀ patch now, updatePost db postId patch userId now =
        (.error (.authorization "You can only update your own posts"), db)) ∧
    deletePost db store postId userId =
      (.error (.authorization "You can only delete your own posts"), db, store) := by
  constructor
  · intro patch now
    simp [updatePost, hvalid, hfind, howner]
  · simp [deletePost, hvalid, hfind, howner]

def pid3 : String := "bbbbbbbbbbbbbbbbbbbbbbbb"

def post3 : Post :=
  { id := pid3, title := "Hi there", content := "This is long enough content",
    user_id := "u1", images := [] }

/-- C3 (witness). -/
theorem ownership_guard_witness :
    updatePost [post3] pid3
        { title := some "Valid title", content := some "Valid content here!" } "u2" 7 =
      (.error (.authorization "You can only update your own posts"), [post3]) ∧
    deletePost [post3] [] pid3 "u2" =
      (.error (.authorization "You can only delete your own posts"), [post3], []) :=
  ⟨(ownership_guard [post3] [] pid3 "u2" post3 (by decide) (by decide) (by decide)).1 _ 7,
   (ownership_guard [post3] [] pid3 "u2" post3 (by decide) (by decide) (by decide)).2⟩

/-! ## Claim C4 — createPost validation and image mapping -/

theorem jsTrim_eq_empty : jsTrim "" = "" := rfl

theorem ne_empty_of_trim_len {t : String} (h : (jsTrim t).length ≠ 0) :
    t ≠ "" := by
  intro h0
  subst h0
  simp [jsTrim_eq_empty] at h

/-- C4: `createPost` raises a validation error when title or content is
missing (absent or empty), when the trimmed title is shorter than 3, or when
the trimmed content is shorter than 10 — leaving the database untouched; on
any input with trimmed title ≥ 3 and trimmed content ≥ 10 it succeeds, and
the created record's `images` list is exactly one `PostImageRef` per uploaded
file, carrying that file's id as `fileId` together with its filename,
contentType and size. -/
theorem createPost_spec (db : List Post) (newId : String) (now : Nat) (pd : PostData)
    (userId : String) (files : List UploadedFile) :
    (jsTruthy pd.title = false ∨ jsTruthy pd.content = false →
      createPost db newId now pd userId files =
        (.error (.validation "Title and content are required"), db)) ∧
    (∀ t, pd.title = some t → (jsTrim t).length < 3 →
      ∃ m, createPost db newId now pd userId files = (.error (.validation m), db)) ∧
    (∀ t c, pd.title = some t → pd.content = some c →
      3 ≤ (jsTrim t).length → (jsTrim c).length < 10 →
      ∃ m, createPost db newId now pd userId files = (.error (.validation m), db)) ∧
    (∀ t c, pd.title = some t → pd.content = some c →
      3 ≤ (jsTrim t).length → 10 ≤ (jsTrim c).length →
      ∃ p, createPost db newId now pd userId files = (.ok p, db ++ [p]) ∧
        p.images = files.map toImageRef ∧
        p.images.length = files.length ∧
        p.title = jsTrim t ∧ p.content = jsTrim c ∧
        p.user_id = userId ∧ p.createdAt = now ∧ p.id = newId) := by
  refine ⟨?_, ?_, ?_, ?_⟩
  · rintro (h | h) <;> simp [createPost, h]
  · intro t ht hlt
    by_cases h0 : t = ""
    · exact ⟨"Title and content are required", by simp [createPost, ht, h0, jsTruthy]⟩
    · by_cases hc : jsTruthy pd.content = false
      · exact ⟨"Title and content are required", by simp [createPost, hc]⟩
      · rw [Bool.not_eq_false] at hc
        obtain ⟨c, hceq, hcne⟩ : ∃ c, pd.content = some c ∧ c ≠ "" := by
          cases hcc : pd.content with
          | none => rw [hcc] at hc; simp [jsTruthy] at hc
          | some c =>
            rw [hcc] at hc
            simp only [jsTruthy, decide_eq_true_eq] at hc
            exact ⟨c, rfl, by simpa using hc⟩
        exact ⟨"Title must be at least 3 characters long",
          by simp [createPost, ht, hceq, jsTruthy, h0, hcne, hlt]⟩
  · intro t c ht hc h3 h10
    have h0 : t ≠ "" := ne_empty_of_trim_len (by omega)
    by_cases hc0 : c = ""
    · exact ⟨"Title and content are required", by simp [createPost, hc, hc0, jsTruthy]⟩
    · refine ⟨"Content must be at least 10 characters long", ?_⟩
      simp [createPost, ht, hc, jsTruthy, h0, hc0, Nat.not_lt.mpr h3, h10]
  · intro t c ht hc h3 h10
    have h0 : t ≠ "" := ne_empty_of_trim_len (by omega)
    have hc0 : c ≠ "" := ne_empty_of_trim_len (by omega)
    refine ⟨{ id := newId, title := jsTrim t, content := jsTrim c, user_id := userId,
              images := files.map toImageRef, createdAt := now, updatedAt := now },
            ?_, rfl, by simp, rfl, rfl, rfl, rfl, rfl⟩
    cases files with
    | nil => simp [createPost, ht, hc, jsTruthy, h0, hc0, Nat.not_lt.mpr h3, Nat.not_lt.mpr h10]
    | cons f fs =>
      simp [createPost, ht, hc, jsTruthy, h0, hc0, Nat.not_lt.mpr h3, Nat.not_lt.mpr h10]

def uf4 : UploadedFile :=
  { id := "333333333333333333333333", filename := "deadbeef01234567.png",
    contentType := "image/png", size := 3 }

/-- C4 (witness). -/
theorem createPost_spec_witness :
    ∃ p, createPost [] "cccccccccccccccccccccccc" 42
        { title := some "My title", content := some "Content long enough" } "u1" [uf4] =
      (.ok p, [] ++ [p]) ∧
      p.images = [uf4].map toImageRef ∧
      p.images.length = [uf4].length ∧
      p.title = jsTrim "My title" ∧ p.content = jsTrim "Content long enough" ∧
      p.user_id = "u1" ∧ p.createdAt = 42 ∧ p.id = "cccccccccccccccccccccccc" :=
  (createPost_spec [] "cccccccccccccccccccccccc" 42
      { title := some "My title", content := some "Content long enough" } "u1"
      [uf4]).2.2.2 "My title" "Content long enough" rfl rfl (by decide) (by decide)

/-! ## Claim C5 — updatePost validates exactly the fields present -/

/-- C5: with an owner-authorized update of an existing post, a patch whose
title has trimmed length < 3, or whose content has trimmed length < 10,
yields a validation error (through the service check, or — for the empty
string, which JS truthiness lets past the service check — through the
schema's `required` validator under `runValidators`) and the database is
returned unchanged; a field absent from the patch is neither validated nor
modified: the empty patch succeeds changing nothing, and a patch touching
only one valid field succeeds leaving the other field as stored. -/
theorem updatePost_validates_present_fields (db : List Post) (postId userId : String)
    (post : Post) (patch : Patch) (now : Nat)
    (hvalid : isValidObjectId postId = true)
    (hfind : findById db postId = some post)
    (howner : post.user_id = userId) :
    (∀ t, patch.title = some t → (jsTrim t).length < 3 →
      ∃ m, updatePost db postId patch userId now = (.error (.validation m), db)) ∧
    (∀ c, patch.content = some c → (jsTrim c).length < 10 →
      ∃ m, updatePost db postId patch userId now = (.error (.validation m), db)) ∧
    (patch.title = none → patch.content = none →
      updatePost db postId patch userId now =
        (.ok (some { post with updatedAt := now }),
          replaceById db postId { post with updatedAt := now })) ∧
    (∀ c, patch.title = none → patch.content = some c → 10 ≤ (jsTrim c).length →
      updatePost db postId patch userId now =
        (.ok (some { post with content := jsTrim c, updatedAt := now }),
          replaceById db postId { post with content := jsTrim c, updatedAt := now })) ∧
    (∀ t, patch.content = none → patch.title = some t → 3 ≤ (jsTrim t).length →
      updatePost db postId patch userId now =
        (.ok (some { post with title := jsTrim t, updatedAt := now }),
          replaceById db postId { post with title := jsTrim t, updatedAt := now })) := by
  refine ⟨?_, ?_, ?_, ?_, ?_⟩
  · intro t ht hlt
    by_cases h0 : t = ""
    · subst h0
      cases hcc : patch.content with
      | none =>
        exact ⟨"Post validation failed",
          by simp [updatePost, findByIdAndUpdate, hvalid, hfind, howner, ht, hcc, jsTruthy, jsTrim_eq_empty]⟩
      | some c =>
        by_cases hc0 : c = ""
        · subst hc0
          exact ⟨"Post validation failed",
            by simp [updatePost, findByIdAndUpdate, hvalid, hfind, howner, ht, hcc, jsTruthy, jsTrim_eq_empty]⟩
        · by_cases hclt : (jsTrim c).length < 10
          · exact ⟨"Content must be at least 10 characters long",
              by simp [updatePost, hvalid, hfind, howner, ht, hcc, jsTruthy, hc0, hclt]⟩
          · exact ⟨"Post validation failed",
              by simp [updatePost, findByIdAndUpdate, hvalid, hfind, howner, ht, hcc,
                       jsTruthy, jsTrim_eq_empty, hc0, hclt]⟩
    · exact ⟨"Title must be at least 3 characters long",
        by simp [updatePost, hvalid, hfind, howner, ht, jsTruthy, h0, hlt]⟩
  · intro c hc hlt
    by_cases hc0 : c = ""
    · subst hc0
      cases htt : patch.title with
      | none =>
        exact ⟨"Post validation failed",
          by simp [updatePost, findByIdAndUpdate, hvalid, hfind, howner, hc, htt, jsTruthy, jsTrim_eq_empty]⟩
      | some t =>
        by_cases h0 : t = ""
        · subst h0
          exact ⟨"Post validation failed",
            by simp [updatePost, findByIdAndUpdate, hvalid, hfind, howner, hc, htt, jsTruthy, jsTrim_eq_empty]⟩
        · by_cases htlt : (jsTrim t).length < 3
          · exact ⟨"Title must be at least 3 characters long",
              by simp [updatePost, hvalid, hfind, howner, hc, htt, jsTruthy, h0, htlt]⟩
          · exact ⟨"Post validation failed",
              by simp [updatePost, findByIdAndUpdate, hvalid, hfind, howner, hc, htt,
                       jsTruthy, jsTrim_eq_empty, h0, htlt]⟩
    · cases htt : patch.title with
      | none =>
        exact ⟨"Content must be at least 10 characters long",
          by simp [updatePost, hvalid, hfind, howner, hc, htt, jsTruthy, hc0, hlt]⟩
      | some t =>
        by_cases h0 : t = ""
        · subst h0
          exact ⟨"Content must be at least 10 characters long",
            by simp [updatePost, hvalid, hfind, howner, hc, htt, jsTruthy, hc0, hlt]⟩
        · by_cases htlt : (jsTrim t).length < 3
          · exact ⟨"Title must be at least 3 characters long",
              by simp [updatePost, hvalid, hfind, howner, hc, htt, jsTruthy, h0, htlt]⟩
          · exact ⟨"Content must be at least 10 characters long",
              by simp [updatePost, hvalid, hfind, howner, hc, htt, jsTruthy, h0, htlt, hc0, hlt]⟩
  · intro ht hc
    simp [updatePost, findByIdAndUpdate, hvalid, hfind, howner, ht, hc, jsTruthy]
  · intro c ht hc hlen
    have hc0 : c ≠ "" := ne_empty_of_trim_len (by omega)
    have htrimne : ¬(jsTrim c = "") := by
      intro h
      rw [h] at hlen
      simp at hlen
    simp [updatePost, findByIdAndUpdate, hvalid, hfind, howner, ht, hc, jsTruthy, hc0,
          Nat.not_lt.mpr hlen, htrimne]
  · intro t hc ht hlen
    have h0 : t ≠ "" := ne_empty_of_trim_len (by omega)
    have htrimne : ¬(jsTrim t = "") := by
      intro h
      rw [h] at hlen
      simp at hlen
    simp [updatePost, findByIdAndUpdate, hvalid, hfind, howner, ht, hc, jsTruthy, h0,
          Nat.not_lt.mpr hlen, htrimne]

def pid5 : String := "eeeeeeeeeeeeeeeeeeeeeeee"

def post5 : Post :=
  { id := pid5, title := "Old title", content := "Old content is long", user_id := "u1" }

/-- C5 (witness). -/
theorem updatePost_validates_present_fields_witness :
    (∃ m, updatePost [post5] pid5 { title := some "ab" } "u1" 9 =
      (.error (.validation m), [post5])) ∧
    updatePost [post5] pid5 { content := some "This content is long enough" } "u1" 9 =
      (.ok (some { post5 with content := jsTrim "This content is long enough", updatedAt := 9 }),
        replaceById [post5] pid5
          { post5 with content := jsTrim "This content is long enough", updatedAt := 9 }) :=
  ⟨(updatePost_validates_present_fields [post5] pid5 "u1" post5 { title := some "ab" } 9
      (by decide) (by decide) rfl).1 "ab" rfl (by decide),
   (updatePost_validates_present_fields [post5] pid5 "u1" post5
      { content := some "This content is long enough" } 9
      (by decide) (by decide) rfl).2.2.2.1 "This content is long enough" rfl rfl (by decide)⟩

/-! ## Claim C6 — updatePost touches only title and content -/

theorem replaceById_map_proj (pid : String) (post p' : Post)
    (hid : p'.id = post.id) (huser : p'.user_id = post.user_id)
    (himgs : p'.images = post.images) (hcreated : p'.createdAt = post.createdAt) :
    ∀ db : List Post, findById db pid = some post →
    (replaceById db pid p').map (fun p => (p.id, p.user_id, p.images, p.createdAt)) =
      db.map (fun p => (p.id, p.user_id, p.images, p.createdAt)) := by
  intro db
  induction db with
  | nil => intro h; rfl
  | cons q rest ih =>
    intro hfind
    by_cases h : q.id = pid
    · have hq : post = q := by
        rw [findById, List.find?_cons_of_pos _ (by simpa using h)] at hfind
        exact (Option.some_inj.mp hfind).symm
      subst hq
      simp [replaceById, h, hid, huser, himgs, hcreated]
    · rw [findById, List.find?_cons_of_neg _ (by simpa using h)] at hfind
      simp only [replaceById, h, if_false, List.map_cons]
      rw [ih hfind]

/-- C6: for every database, post id, user and patch — including patches with
arbitrary extra keys — the database returned by `updatePost` agrees with the
input database on `id`, `user_id`, `images` and `createdAt` of every record,
in order: at most `title` and `content` (and the managed `updatedAt`) of the
targeted post change. -/
theorem updatePost_frame (db : List Post) (postId : String) (patch : Patch)
    (userId : String) (now : Nat) :
    ((updatePost db postId patch userId now).2).map
        (fun p => (p.id, p.user_id, p.images, p.createdAt)) =
      db.map (fun p => (p.id, p.user_id, p.images, p.createdAt)) := by
  unfold updatePost
  split
  · rfl
  · split
    · rfl
    · rename_i post hfind
      split
      · rfl
      · split
        · rfl
        · split
          · rfl
          · dsimp only
            split
            · rfl
            · rename_i res db' heq
              rw [findByIdAndUpdate] at heq
              split at heq
              · simp at heq
              · rw [hfind] at heq
                simp only [Except.ok.injEq, Prod.mk.injEq] at heq
                obtain ⟨hres, hdb⟩ := heq
                rw [← hdb]
                exact replaceById_map_proj postId post
                  { post with
                    title := (Option.map jsTrim patch.title).getD post.title
                    content := (Option.map jsTrim patch.content).getD post.content
                    updatedAt := now } rfl rfl rfl rfl db hfind

/-! ## Claim C7 — generated storage name -/

theorem length_flatMap_byteToHex (bs : List Nat) :
    (bs.flatMap byteToHex).length = 2 * bs.length := by
  induction bs with
  | nil => rfl
  | cons b rest ih =>
    simp only [List.flatMap_cons, List.length_append, ih, byteToHex]
    simp
    omega

theorem hexDigitChar_isHex : ∀ n < 16, isHexChar (hexDigitChar n) = true := by decide

theorem mem_byteToHex_isHex {b : Nat} (hb : b < 256) :
    ∀ c ∈ byteToHex b, isHexChar c = true := by
  intro c hc
  simp only [byteToHex, List.mem_cons, List.mem_singleton, List.not_mem_nil, or_false] at hc
  rcases hc with rfl | rfl
  · exact hexDigitChar_isHex _ (Nat.div_lt_of_lt_mul (by omega))
  · exact hexDigitChar_isHex _ (Nat.mod_lt _ (by omega))

/-- C7: the generated storage name is the hex encoding of the 16 random bytes
followed by `path.extname` of the original filename — 32 lowercase-hex
characters, plus the derived extension, and nothing else of the user's input;
when the original name yields no extension the storage name is the 32-hex
string alone; the resolved record carries this storage name, the original
mimetype as `contentType`, and the buffer's byte length as `size`. -/
theorem uploadToGridFS_storage_name (randomBytes : List Nat) (newId : String)
    (store : List StoredObject) (fileInfo : FileInfo) (userId : String) (now : Nat)
    (hlen : randomBytes.length = 16) (hbytes : ∀ b ∈ randomBytes, b < 256) :
    (uploadToGridFS randomBytes newId store fileInfo userId now).1.filename =
      bytesToHex randomBytes ++ extname fileInfo.originalname ∧
    (bytesToHex randomBytes).length = 32 ∧
    (∀ c ∈ (bytesToHex randomBytes).toList, isHexChar c = true) ∧
    (extname fileInfo.originalname = "" →
      (uploadToGridFS randomBytes newId store fileInfo userId now).1.filename =
        bytesToHex randomBytes) ∧
    (uploadToGridFS randomBytes newId store fileInfo userId now).1.contentType =
      fileInfo.mimetype ∧
    (uploadToGridFS randomBytes newId store fileInfo userId now).1.size =
      fileInfo.buffer.length ∧
    (uploadToGridFS randomBytes newId store fileInfo userId now).1.id = newId := by
  refine ⟨rfl, ?_, ?_, ?_, rfl, rfl, rfl⟩
  · show (randomBytes.flatMap byteToHex).length = 32
    rw [length_flatMap_byteToHex, hlen]
  · intro c hc
    have hc' : c ∈ randomBytes.flatMap byteToHex := hc
    rw [List.mem_flatMap] at hc'
    obtain ⟨b, hb, hcb⟩ := hc'
    exact mem_byteToHex_isHex (hbytes b hb) c hcb
  · intro hext
    show bytesToHex randomBytes ++ extname fileInfo.originalname = bytesToHex randomBytes
    rw [hext]
    exact String.append_empty _

def fi7 : FileInfo := { originalname := "photo.png", mimetype := "image/png", buffer := [9, 9] }

/-- C7 (witness). -/
theorem uploadToGridFS_storage_name_witness :
    (uploadToGridFS (List.range 16) "444444444444444444444444" [] fi7 "u1" 3).1.filename =
      bytesToHex (List.range 16) ++ extname fi7.originalname ∧
    (bytesToHex (List.range 16)).length = 32 ∧
    (∀ c ∈ (bytesToHex (List.range 16)).toList, isHexChar c = true) ∧
    (extname fi7.originalname = "" →
      (uploadToGridFS (List.range 16) "444444444444444444444444" [] fi7 "u1" 3).1.filename =
        bytesToHex (List.range 16)) ∧
    (uploadToGridFS (List.range 16) "444444444444444444444444" [] fi7 "u1" 3).1.contentType =
      fi7.mimetype ∧
    (uploadToGridFS (List.range 16) "444444444444444444444444" [] fi7 "u1" 3).1.size =
      fi7.buffer.length ∧
    (uploadToGridFS (List.range 16) "444444444444444444444444" [] fi7 "u1" 3).1.id =
      "444444444444444444444444" :=
  uploadToGridFS_storage_name (List.range 16) "444444444444444444444444" [] fi7 "u1" 3
    (by decide) (by decide)

/-! ## Claim C8 — malformed ids rejected before any lookup -/

/-- C8: for an id string that is not a well-formed ObjectId, the by-id
download endpoint answers 400 (a client error, not a 500), and
`getPostById` / `updatePost` / `deletePost` raise the id-format validation
error — in each case uniformly in the database and object store arguments,
i.e. without consulting them, and returning them unchanged. -/
theorem invalid_id_client_error (pid : String) (h : isValidObjectId pid = false) :
    (∀ store, getImageById store pid = .json 400 "Invalid file ID") ∧
    (∀ db, getPostById db pid = .error (.validation "Invalid post ID format")) ∧
    (∀ db patch userId now, updatePost db pid patch userId now =
      (.error (.validation "Invalid post ID format"), db)) ∧
    (∀ db store userId, deletePost db store pid userId =
      (.error (.validation "Invalid post ID format"), db, store)) := by
  refine ⟨?_, ?_, ?_, ?_⟩
  · intro store
    simp [getImageById, h]
  · intro db
    simp [getPostById, h]
  · intro db patch userId now
    simp [updatePost, h]
  · intro db store userId
    simp [deletePost, h]

/-- C8 (witness): `"zz"` is neither 24 hex characters nor 12 characters. -/
theorem invalid_id_client_error_witness :
    getImageById [] "zz" = .json 400 "Invalid file ID" ∧
    getPostById [] "zz" = .error (.validation "Invalid post ID format") ∧
    updatePost [] "zz" {} "u" 0 = (.error (.validation "Invalid post ID format"), []) ∧
    deletePost [] [] "zz" "u" = (.error (.validation "Invalid post ID format"), [], []) :=
  ⟨(invalid_id_client_error "zz" (by decide)).1 [],
   (invalid_id_client_error "zz" (by decide)).2.1 [],
   (invalid_id_client_error "zz" (by decide)).2.2.1 [] {} "u" 0,
   (invalid_id_client_error "zz" (by decide)).2.2.2 [] [] "u"⟩

/-! ## Claim C10 — zero-file creation -/

/-- C10: `uploadMultipleToGridFS` returns `[]` for a missing or empty file
list without touching the object store, and `createPost` with valid
title/content and no files succeeds with an empty `images` list. -/
theorem zero_files_create (db : List Post) (newId : String) (now : Nat) (userId : String)
    (t c : String) (ht : 3 ≤ (jsTrim t).length) (hc : 10 ≤ (jsTrim c).length) :
    (∀ randoms store now2, uploadMultipleToGridFS randoms none userId store now2 = ([], store)) ∧
    (∀ randoms store now2,
      uploadMultipleToGridFS randoms (some []) userId store now2 = ([], store)) ∧
    (∃ p, createPost db newId now { title := some t, content := some c } userId [] =
      (.ok p, db ++ [p]) ∧ p.images = []) := by
  have h0 : t ≠ "" := ne_empty_of_trim_len (by omega)
  have hc0 : c ≠ "" := ne_empty_of_trim_len (by omega)
  refine ⟨fun _ _ _ => rfl, fun _ _ _ => rfl,
    ⟨{ id := newId, title := jsTrim t, content := jsTrim c, user_id := userId,
       images := [], createdAt := now, updatedAt := now }, ?_, rfl⟩⟩
  simp [createPost, jsTruthy, h0, hc0, Nat.not_lt.mpr ht, Nat.not_lt.mpr hc]

/-- C10 (witness). -/
theorem zero_files_create_witness :
    (uploadMultipleToGridFS [] none "u9" [] 0 = ([], [])) ∧
    (uploadMultipleToGridFS [] (some []) "u9" [] 0 = ([], [])) ∧
    (∃ p, createPost [] "999999999999999999999999" 1
        { title := some "Nice title", content := some "Some long enough text" } "u9" [] =
      (.ok p, [] ++ [p]) ∧ p.images = []) := by
  have h := zero_files_create [] "999999999999999999999999" 1 "u9"
    "Nice title" "Some long enough text" (by decide) (by decide)
  exact ⟨h.1 [] [] 0, h.2.1 [] [] 0, h.2.2⟩

/-! ## Claim C9 — pagination -/

theorem sortByCreatedAtDesc_perm (posts : List Post) :
    (sortByCreatedAtDesc posts).Perm posts :=
  List.mergeSort_perm posts _

theorem sortByCreatedAtDesc_sorted (posts : List Post) :
    (sortByCreatedAtDesc posts).Pairwise (fun a b => b.createdAt ≤ a.createdAt) := by
  have h := @List.sorted_mergeSort Post
    (fun a b : Post => decide (b.createdAt ≤ a.createdAt))
    (fun a b c hab hbc => by
      simp only [decide_eq_true_eq] at hab hbc ⊢
      omega)
    (fun a b => by
      simp only [Bool.or_eq_true, decide_eq_true_eq]
      omega)
    posts
  exact h.imp (by simp)

theorem jsCeilDiv_zero (limit : Nat) (hl : 0 < limit) : jsCeilDiv 0 limit = 0 := by
  unfold jsCeilDiv
  exact Nat.div_eq_of_lt (by omega)

theorem jsCeilDiv_ge (total limit : Nat) (hl : 0 < limit) :
    total ≤ jsCeilDiv total limit * limit := by
  have h : total + limit - 1 < (jsCeilDiv total limit + 1) * limit :=
    (Nat.div_lt_iff_lt_mul hl).mp (Nat.lt_succ_self _)
  have hexp : (jsCeilDiv total limit + 1) * limit = jsCeilDiv total limit * limit + limit := by
    ring
  omega

theorem jsCeilDiv_lt (total limit : Nat) (hl : 0 < limit) (ht : 0 < total) :
    (jsCeilDiv total limit - 1) * limit < total := by
  have hq1 : 1 ≤ jsCeilDiv total limit := by
    rw [jsCeilDiv, Nat.one_le_div_iff hl]
    omega
  obtain ⟨Q, hQ⟩ : ∃ Q, jsCeilDiv total limit = Q + 1 :=
    ⟨jsCeilDiv total limit - 1, by omega⟩
  have h : jsCeilDiv total limit * limit ≤ total + limit - 1 := by
    rw [jsCeilDiv]
    exact Nat.div_mul_le_self _ _
  rw [hQ] at h
  rw [hQ]
  have hexp : (Q + 1) * limit = Q * limit + limit := by ring
  simp only [Nat.add_sub_cancel]
  omega

/-- C9: for every page ≥ 1 and limit in [1,100], `getAllPosts` and
`getPostsByUser` return the page of posts ordered by creation time
descending — the slice of the descending-sorted (full or per-user) post list
that skips `(page-1)*limit` records and holds at most `limit` records —
together with the total count of matching posts, and a page count that is
exactly `ceil(total/limit)` (characterized order-theoretically: `pages*limit`
covers `total`, `(pages-1)*limit` does not, and zero total gives zero
pages). -/
theorem listPosts_pagination (db : List Post) (userId : String) (page limit : Nat)
    (hp : 1 ≤ page) (hl : 1 ≤ limit) (hl100 : limit ≤ 100) :
    ((getAllPosts db page limit).posts).Pairwise (fun a b => b.createdAt ≤ a.createdAt) ∧
    (sortByCreatedAtDesc db).Perm db ∧
    (getAllPosts db page limit).posts =
      ((sortByCreatedAtDesc db).drop ((page - 1) * limit)).take limit ∧
    (getAllPosts db page limit).posts.length ≤ limit ∧
    (getAllPosts db page limit).pagination.total = db.length ∧
    (getAllPosts db page limit).pagination.total ≤
      (getAllPosts db page limit).pagination.pages * limit ∧
    (0 < (getAllPosts db page limit).pagination.total →
      ((getAllPosts db page limit).pagination.pages - 1) * limit <
        (getAllPosts db page limit).pagination.total) ∧
    ((getAllPosts db page limit).pagination.total = 0 →
      (getAllPosts db page limit).pagination.pages = 0) ∧
    ((getPostsByUser db userId page limit).posts).Pairwise
      (fun a b => b.createdAt ≤ a.createdAt) ∧
    (getPostsByUser db userId page limit).posts =
      ((sortByCreatedAtDesc (db.filter (fun p => p.user_id = userId))).drop
        ((page - 1) * limit)).take limit ∧
    (getPostsByUser db userId page limit).posts.length ≤ limit ∧
    (∀ p ∈ (getPostsByUser db userId page limit).posts, p.user_id = userId) ∧
    (getPostsByUser db userId page limit).pagination.total =
      (db.filter (fun p => p.user_id = userId)).length ∧
    (getPostsByUser db userId page limit).pagination.total ≤
      (getPostsByUser db userId page limit).pagination.pages * limit ∧
    (0 < (getPostsByUser db userId page limit).pagination.total →
      ((getPostsByUser db userId page limit).pagination.pages - 1) * limit <
        (getPostsByUser db userId page limit).pagination.total) := by
  have hl0 : 0 < limit := hl
  refine ⟨?_, sortByCreatedAtDesc_perm db, rfl, ?_, rfl, ?_, ?_, ?_, ?_, rfl, ?_, ?_, rfl,
    ?_, ?_⟩
  · exact List.Pairwise.sublist
      ((List.take_sublist _ _).trans (List.drop_sublist _ _))
      (sortByCreatedAtDesc_sorted db)
  · exact List.length_take_le _ _
  · exact jsCeilDiv_ge db.length limit hl0
  · intro h
    exact jsCeilDiv_lt db.length limit hl0 h
  · intro h
    have h' : db.length = 0 := h
    show jsCeilDiv db.length limit = 0
    rw [h']
    exact jsCeilDiv_zero limit hl0
  · exact List.Pairwise.sublist
      ((List.take_sublist _ _).trans (List.drop_sublist _ _))
      (sortByCreatedAtDesc_sorted _)
  · exact List.length_take_le _ _
  · intro p hp'
    have h1 : p ∈ sortByCreatedAtDesc (db.filter (fun p => p.user_id = userId)) :=
      ((List.take_sublist _ _).trans (List.drop_sublist _ _)).subset hp'
    have h2 : p ∈ db.filter (fun p => p.user_id = userId) :=
      (sortByCreatedAtDesc_perm _).mem_iff.mp h1
    exact of_decide_eq_true (List.mem_filter.mp h2).2
  · exact jsCeilDiv_ge _ limit hl0
  · intro h
    exact jsCeilDiv_lt _ limit hl0 h

def post9a : Post :=
  { id := "a00000000000000000000000", title := "First post", content := "First post content!",
    user_id := "u1", createdAt := 1 }

def post9b : Post :=
  { id := "b00000000000000000000000", title := "Second post", content := "Second post content!",
    user_id := "u2", createdAt := 2 }

/-- C9 (witness). -/
theorem listPosts_pagination_witness :
    ((getAllPosts [post9a, post9b] 1 10).posts).Pairwise
      (fun a b => b.createdAt ≤ a.createdAt) ∧
    (sortByCreatedAtDesc [post9a, post9b]).Perm [post9a, post9b] ∧
    (getAllPosts [post9a, post9b] 1 10).posts =
      ((sortByCreatedAtDesc [post9a, post9b]).drop ((1 - 1) * 10)).take 10 ∧
    (getAllPosts [post9a, post9b] 1 10).posts.length ≤ 10 ∧
    (getAllPosts [post9a, post9b] 1 10).pagination.total = [post9a, post9b].length ∧
    (getAllPosts [post9a, post9b] 1 10).pagination.total ≤
      (getAllPosts [post9a, post9b] 1 10).pagination.pages * 10 ∧
    (0 < (getAllPosts [post9a, post9b] 1 10).pagination.total →
      ((getAllPosts [post9a, post9b] 1 10).pagination.pages - 1) * 10 <
        (getAllPosts [post9a, post9b] 1 10).pagination.total) ∧
    ((getAllPosts [post9a, post9b] 1 10).pagination.total = 0 →
      (getAllPosts [post9a, post9b] 1 10).pagination.pages = 0) ∧
    ((getPostsByUser [post9a, post9b] "u1" 1 10).posts).Pairwise
      (fun a b => b.createdAt ≤ a.createdAt) ∧
    (getPostsByUser [post9a, post9b] "u1" 1 10).posts =
      ((sortByCreatedAtDesc ([post9a, post9b].filter (fun p => p.user_id = "u1"))).drop
        ((1 - 1) * 10)).take 10 ∧
    (getPostsByUser [post9a, post9b] "u1" 1 10).posts.length ≤ 10 ∧
    (∀ p ∈ (getPostsByUser [post9a, post9b] "u1" 1 10).posts, p.user_id = "u1") ∧
    (getPostsByUser [post9a, post9b] "u1" 1 10).pagination.total =
      ([post9a, post9b].filter (fun p => p.user_id = "u1")).length ∧
    (getPostsByUser [post9a, post9b] "u1" 1 10).pagination.total ≤
      (getPostsByUser [post9a, post9b] "u1" 1 10).pagination.pages * 10 ∧
    (0 < (getPostsByUser [post9a, post9b] "u1" 1 10).pagination.total →
      ((getPostsByUser [post9a, post9b] "u1" 1 10).pagination.pages - 1) * 10 <
        (getPostsByUser [post9a, post9b] "u1" 1 10).pagination.total) :=
  listPosts_pagination [post9a, post9b] "u1" 1 10 (by decide) (by decide) (by decide)
